import Mathlib

/-!
Verification of the `fts` full-text-search library (Go) against its
specification.  The development shallowly embeds the package:

* `GoErr` models Go error values: the `errs` sentinel kinds declared in
  `index.go`, opaque backend (driver) errors, `fmt.Errorf("%w: ...")`
  wrapping, and `errors.Join` results.
* `DB` models the SQLite connection as seen through `database/sql`: the
  stored `(id, val)` rows plus outcome oracles for each driver call
  (query, scan, begin, exec, commit, rollback, close).  A backend fault is
  an opaque message (`String`), since driver errors are foreign values that
  never compare equal to this package's sentinels under `errors.Is`.
* `Index.Search` / `Index.Insert` / `Index.Delete` are translated
  statement-by-statement from `index.go`.
* `Indexer` is the capability interface: an inductive whose constructors
  are the concrete Go implementations (`Index`, `noOpIndexer`,
  `loggedIndexer`, `metricsIndexer`, `tracedIndexer`); Go type assertions
  such as `indexer.(metricsIndexer[K, V])` become constructor matches.
* `runSearch` etc. interpret an `Indexer` value, returning the Go return
  values together with the list of observability events (log records,
  counter increments, latency observations, span events) the decorators
  emit, in program order.
-/

/-- Go error values, as used in this package.  `errKind d k e` is a sentinel
built by `errs.WithDomain` (e.g. `ErrNotFoundKeyword`); `backend msg` is an
opaque error coming from `database/sql`, the sqlite driver or the OS;
`wrap inner suffix` is `fmt.Errorf("%w: %v", inner, x)`; `joined1` / `joined2`
are the non-nil results of `errors.Join` — which in this package is always
applied to exactly two arguments — holding its one or two non-nil arguments. -/
inductive GoErr where
  | errKind (domain kind entity : String)
  | backend (msg : String)
  | wrap (inner : GoErr) (suffix : String)
  | joined1 (a : GoErr)
  | joined2 (a b : GoErr)
deriving DecidableEq, Repr

/-- Sentinel `ErrNotFoundKeyword = errs.WithDomain(errDomain, ErrNotFound, ErrKeyword)`
from `index.go`. -/
def ErrNotFoundKeyword : GoErr := .errKind "fts" "not found" "keyword"

/-- Sentinel `ErrZeroAttributes = errs.WithDomain(errDomain, ErrZero, ErrAttributes)`
from `index.go`. -/
def ErrZeroAttributes : GoErr := .errKind "fts" "zero" "attributes"

/-- Semantics of Go `errors.Is(e, t)`: `e` equals the target, or the target is
found by unwrapping (`wrap` unwraps to its inner error, `joined` to each of
its members). -/
def errIs : GoErr → GoErr → Bool
  | .wrap inner s, t => decide (GoErr.wrap inner s = t) || errIs inner t
  | .joined1 a, t => decide (GoErr.joined1 a = t) || errIs a t
  | .joined2 a b, t => decide (GoErr.joined2 a b = t) || errIs a t || errIs b t
  | e, t => decide (e = t)

/-- Semantics of Go `errors.Join(a, b)` for two possibly-nil errors: nil when
both are nil, otherwise a join error holding the non-nil ones in order. -/
def goJoin : Option GoErr → Option GoErr → Option GoErr
  | none, none => none
  | some a, none => some (.joined1 a)
  | none, some b => some (.joined1 b)
  | some a, some b => some (.joined2 a b)

/-- Attribute from `index.go`: an indexable `(Key, Value)` record. -/
structure Attribute (K V : Type) where
  key : K
  val : V
deriving DecidableEq, Repr

/-- Outcome oracles for the `database/sql` calls issued by `Index`.  Each
field gives the error message returned by the corresponding driver call
(`none` = the call succeeds).  Indexed oracles (`execErr`, `scanErr`) give
the outcome of the i-th `ExecContext` in a transaction / the scan of the
i-th returned row. -/
structure DBFaults where
  queryErr : Option String
  scanErr : Nat → Option String
  beginTxErr : Option String
  execErr : Nat → Option String
  commitErr : Option String
  rollbackErr : Option String
  closeErr : Option String

/-- A healthy backend: every driver call succeeds. -/
def DBFaults.ok : DBFaults :=
  ⟨none, fun _ => none, none, fun _ => none, none, none, none⟩

/-- The SQLite database behind an `Index`: its `fulltext_search` rows, the
engine-side FTS5 match semantics (`ftsMatch val term` for
`SELECT ... FROM fulltext_search(?)`, `keyMatch id key` for
`WHERE id MATCH ?` — both belong to the external engine, out of scope in the
spec), the `%v` formatting of search terms, and the driver-call oracles. -/
structure DB (K V : Type) where
  rows : List (Attribute K V)
  ftsMatch : V → V → Bool
  keyMatch : K → K → Bool
  fmtV : V → String
  faults : DBFaults

/-- Loop `for rows.Next() { ... rows.Scan(...) ... }` from `Index.Search`:
scan the i-th row, failing with the driver scan error if one is injected,
otherwise append the decoded attribute. -/
def scanRows {K V : Type} (scanErr : Nat → Option String) :
    Nat → List (Attribute K V) → Except GoErr (List (Attribute K V))
  | _, [] => .ok []
  | i, a :: rest =>
    match scanErr i with
    | some msg => .error (.backend msg)
    | none => (scanRows scanErr (i + 1) rest).map (fun tl => a :: tl)

/-- Translation of `Index.Search` (index.go): run the FTS query (the engine
returns the rows whose value matches the term), scan every row, and if zero
results were collected return `fmt.Errorf("%w: %v", ErrNotFoundKeyword, searchTerm)`.
The first component is the returned slice (`none` = Go `nil`). -/
def Index.Search {K V : Type} (db : DB K V) (searchTerm : V) :
    Option (List (Attribute K V)) × Option GoErr :=
  match db.faults.queryErr with
  | some msg => (none, some (.backend msg))
  | none =>
    match scanRows db.faults.scanErr 0
        (db.rows.filter (fun a => db.ftsMatch a.val searchTerm)) with
    | .error e => (none, some e)
    | .ok res =>
      if res.length = 0 then
        (none, some (.wrap ErrNotFoundKeyword (db.fmtV searchTerm)))
      else
        (some res, none)

/-- Loop `for idx := range attrs { tx.ExecContext(...) }` shared by
`Index.Insert` and `Index.Delete`: return the first injected exec error. -/
def execLoop (execErr : Nat → Option String) : Nat → Nat → Option String
  | _, 0 => none
  | i, n + 1 =>
    match execErr i with
    | some msg => some msg
    | none => execLoop execErr (i + 1) n

/-- Translation of `Index.Insert` (index.go): begin a transaction, execute
one INSERT per attribute, then commit; on a commit failure the code returns
`tx.Rollback()` (note: the commit error itself is discarded).  The second
component is the database state afterwards: rows become visible only when
the commit succeeds. -/
def Index.Insert {K V : Type} (db : DB K V) (attrs : List (Attribute K V)) :
    Option GoErr × DB K V :=
  match db.faults.beginTxErr with
  | some msg => (some (.backend msg), db)
  | none =>
    match execLoop db.faults.execErr 0 attrs.length with
    | some msg => (some (.backend msg), db)
    | none =>
      match db.faults.commitErr with
      | some _ => ((db.faults.rollbackErr).map .backend, db)
      | none => (none, { db with rows := db.rows ++ attrs })

/-- Effect of one `DELETE FROM fulltext_search WHERE id MATCH ?` statement:
drop every row whose id matches the key. -/
def deleteRows {K V : Type} (keyMatch : K → K → Bool)
    (rows : List (Attribute K V)) (k : K) : List (Attribute K V) :=
  rows.filter (fun a => !keyMatch a.key k)

/-- Translation of `Index.Delete` (index.go): begin a transaction, execute
one DELETE per key, then commit; on a commit failure the code returns
`tx.Rollback()` (the commit error itself is discarded).  Deletions become
visible only when the commit succeeds. -/
def Index.Delete {K V : Type} (db : DB K V) (keys : List K) :
    Option GoErr × DB K V :=
  match db.faults.beginTxErr with
  | some msg => (some (.backend msg), db)
  | none =>
    match execLoop db.faults.execErr 0 keys.length with
    | some msg => (some (.backend msg), db)
    | none =>
      match db.faults.commitErr with
      | some _ => ((db.faults.rollbackErr).map .backend, db)
      | none => (none, { db with rows := keys.foldl (deleteRows db.keyMatch) db.rows })

/-- Translation of `Index.Shutdown` (index.go): close the database. -/
def Index.Shutdown {K V : Type} (db : DB K V) : Option GoErr :=
  (db.faults.closeErr).map .backend

/-- Result of `os.Stat(uri)` in `validateURI` (database.go): an existing
regular file, an existing directory, a not-exist error, or another stat
failure. -/
inductive StatResult where
  | file
  | dir
  | notExist
  | statErr (msg : String)
deriving DecidableEq, Repr

/-- The filesystem as consulted by `validateURI`: the stat outcome per path
and the outcome of `os.Create` followed by `Close` (`none` = success). -/
structure Fs where
  stat : String → StatResult
  create : String → Option String

/-- Translation of `validateURI` (database.go): stat the path; when it does
not exist create it (returning the create/close outcome); propagate other
stat failures; reject directories with the formatted error. -/
def validateURI (fs : Fs) (uri : String) : Option GoErr :=
  match fs.stat uri with
  | .notExist => (fs.create uri).map .backend
  | .statErr msg => some (.backend msg)
  | .dir => some (.backend (uri ++ " is a directory"))
  | .file => none

/-- String constant `inMemory = ":memory:"` from database.go. -/
def inMemory : String := ":memory:"

/-- DSN built by `fmt.Sprintf(uriFormat, uri)` with
`uriFormat = "file:%s?cache=shared"`. -/
def dsnOf (uri : String) : String := "file:" ++ uri ++ "?cache=shared"

/-- Translation of `open` (database.go): `:memory:` is kept, the empty string
becomes `:memory:`, any other string is validated as an OS path; then the
connection is opened on the formatted DSN.  `sql.Open` with the statically
registered pure-Go sqlite driver only validates its arguments and cannot
fail here, so success returns the DSN of the opened connection. -/
def openURI (fs : Fs) (uri : String) : Except GoErr String :=
  if uri = inMemory then .ok (dsnOf uri)
  else if uri = "" then .ok (dsnOf inMemory)
  else
    match validateURI fs uri with
    | some e => .error e
    | none => .ok (dsnOf uri)

/-- Environment for constructing an `Index` (`NewIndex`): the filesystem seen
by `open`, the outcome of `initDatabase` (the table-exists check plus the
virtual-table creation, abstracted to its returned error), the engine-side
match/format functions, and the driver-call oracles of the resulting
connection. -/
structure DBEnv (K V : Type) where
  fs : Fs
  initErr : Option String
  ftsMatch : V → V → Bool
  keyMatch : K → K → Bool
  fmtV : V → String
  faults : DBFaults

/-- Translation of `NewIndex` (index.go): open the URI, initialize the
schema, and when initial attributes are given load them with `Insert`; if
that load fails the database is closed and `errors.Join(err, closeErr)` is
returned. -/
def NewIndex {K V : Type} (env : DBEnv K V) (uri : String)
    (attrs : List (Attribute K V)) : Except GoErr (DB K V) :=
  match openURI env.fs uri with
  | .error e => .error e
  | .ok _ =>
    match env.initErr with
    | some msg => .error (.backend msg)
    | none =>
      let db : DB K V := ⟨[], env.ftsMatch, env.keyMatch, env.fmtV, env.faults⟩
      if attrs.length > 0 then
        match Index.Insert db attrs with
        | (some e, _) =>
          .error ((goJoin (some e) ((env.faults.closeErr).map .backend)).getD e)
        | (none, db2) => .ok db2
      else
        .ok db

/-- Handler passed to `slog.New`; only its identity matters to the claims, so
it is abstracted to a tag. -/
structure LogHandler where
  id : Nat
deriving DecidableEq, Repr

/-- OpenTelemetry `trace.Tracer`; abstracted to a tag. -/
structure Tracer where
  id : Nat
deriving DecidableEq, Repr

/-- Metrics sink (the `Metrics` interface of indexer_with_metrics.go) as seen
by the decorator: a tag, plus its resource-release shape used by `Shutdown`:
`release = none` models a sink exposing neither a `Shutdown(ctx) error` nor a
`Close() error` method (the type switch falls through and `err` stays nil);
`release = some r` models a sink whose release call returns `r`. -/
structure MetricsSink where
  id : Nat
  release : Option (Option GoErr)
deriving DecidableEq, Repr

/-- Default handler `slog.NewTextHandler(os.Stderr, nil)` used by
`IndexerWithLogs` when given a nil handler. -/
def defaultTextHandler : LogHandler := ⟨0⟩

/-- Default `trace.NewNoopTracerProvider().Tracer("indexer")` used by
`IndexerWithTrace` when given a nil tracer. -/
def noopTracer : Tracer := ⟨0⟩

/-- Default sink built by `metrics.New(8080)` in `IndexerWithMetrics` when
given a nil sink: a fresh `metrics.Metrics` whose collectors register on a
fresh registry (registration of these distinctly named collectors cannot
fail), carrying an HTTP server, hence exposing `Shutdown(ctx) error` which
delegates to `http.Server.Shutdown` and succeeds for an idle server. -/
def defaultMetricsSink : MetricsSink := ⟨0, some none⟩

/-- The capability interface: every concrete implementation of `Indexer[K, V]`
in the package is one constructor.  Go type assertions such as
`indexer.(metricsIndexer[K, V])` become matches on the head constructor. -/
inductive Indexer (K V : Type) where
  | Index (db : DB K V)
  | noOpIndexer
  | loggedIndexer (inner : Indexer K V) (logger : LogHandler)
  | metricsIndexer (inner : Indexer K V) (m : MetricsSink)
  | tracedIndexer (inner : Indexer K V) (tracer : Tracer)

/-- Translation of `NoOp` (indexer_no_op.go). -/
def NoOp {K V : Type} : Indexer K V := .noOpIndexer

/-- Translation of `IndexerWithLogs` (decorator constructor): nil indexer ⇒
no-op; nil handler ⇒ default text handler; an indexer that is already a
`loggedIndexer` gets its logger replaced in place; otherwise wrap. -/
def IndexerWithLogs {K V : Type} :
    Option (Indexer K V) → Option LogHandler → Indexer K V
  | none, _ => NoOp
  | some ix, handler =>
    let h := handler.getD defaultTextHandler
    match ix with
    | .loggedIndexer inner _ => .loggedIndexer inner h
    | other => .loggedIndexer other h

/-- Translation of `IndexerWithMetrics` (indexer_with_metrics.go): nil
indexer ⇒ no-op; nil sink ⇒ default `metrics.New(8080)` sink (whose
construction succeeds, see `defaultMetricsSink`); an indexer that is already
a `metricsIndexer` gets its sink replaced in place; otherwise wrap. -/
def IndexerWithMetrics {K V : Type} :
    Option (Indexer K V) → Option MetricsSink → Indexer K V
  | none, _ => NoOp
  | some ix, m =>
    let sink := m.getD defaultMetricsSink
    match ix with
    | .metricsIndexer inner _ => .metricsIndexer inner sink
    | other => .metricsIndexer other sink

/-- Translation of `IndexerWithTrace` (decorator constructor): nil indexer ⇒
no-op; nil tracer ⇒ no-op tracer; an indexer that is already a
`tracedIndexer` gets its tracer replaced in place; otherwise wrap. -/
def IndexerWithTrace {K V : Type} :
    Option (Indexer K V) → Option Tracer → Indexer K V
  | none, _ => NoOp
  | some ix, tracer =>
    let t := tracer.getD noopTracer
    match ix with
    | .tracedIndexer inner _ => .tracedIndexer inner t
    | other => .tracedIndexer other t

/-- Observability events emitted by the decorators, in program order: slog
records, metrics counter increments and latency observations, and span
lifecycle events. -/
inductive Obs where
  | logInfo (msg : String)
  | logWarn (msg : String)
  | inc (counter : String)
  | latency (histogram : String)
  | spanStart (name : String)
  | spanError
  | spanEnd
deriving DecidableEq, Repr

/-- Interpretation of `Search` on any `Indexer`: the Go return values
`(res, err)` (`res = none` is a nil slice) paired with the emitted
observability events.  Each decorator arm is translated from its `Search`
method: `loggedIndexer` logs before delegating and logs a warning on error;
`metricsIndexer` increments the received counter, delegates, increments the
failed counter on error, then observes the latency; `tracedIndexer` starts a
span, delegates, records error status on error, and ends the span (deferred). -/
def runSearch {K V : Type} :
    Indexer K V → V → (Option (List (Attribute K V)) × Option GoErr) × List Obs
  | .Index db, term => (Index.Search db term, [])
  | .noOpIndexer, _ => ((none, none), [])
  | .loggedIndexer inner _, term =>
    let ((res, err), obs) := runSearch inner term
    ((res, err),
      .logInfo "finding matches for search term" :: obs ++
        (if err.isSome then [.logWarn "error when finding matches"] else []))
  | .metricsIndexer inner _, term =>
    let ((res, err), obs) := runSearch inner term
    ((res, err),
      .inc "searches_total" :: obs ++
        (if err.isSome then [.inc "searches_failed"] else []) ++
        [.latency "search"])
  | .tracedIndexer inner _, term =>
    let ((res, err), obs) := runSearch inner term
    ((res, err),
      .spanStart "search" :: obs ++
        (if err.isSome then [.spanError] else []) ++ [.spanEnd])

/-- Interpretation of `Insert` on any `Indexer` (return value and events);
state evolution of the underlying database is the business of `Index.Insert`
and is not threaded here, since every decorator returns the delegate's error
unchanged. -/
def runInsert {K V : Type} :
    Indexer K V → List (Attribute K V) → Option GoErr × List Obs
  | .Index db, attrs => ((Index.Insert db attrs).1, [])
  | .noOpIndexer, _ => (none, [])
  | .loggedIndexer inner _, attrs =>
    let (err, obs) := runInsert inner attrs
    (err,
      .logInfo "inserting attributes" :: obs ++
        (if err.isSome then [.logWarn "failed to insert attributes"] else []))
  | .metricsIndexer inner _, attrs =>
    let (err, obs) := runInsert inner attrs
    (err,
      .inc "inserts_total" :: obs ++
        (if err.isSome then [.inc "inserts_failed"] else []) ++
        [.latency "insert"])
  | .tracedIndexer inner _, attrs =>
    let (err, obs) := runInsert inner attrs
    (err,
      .spanStart "insert" :: obs ++
        (if err.isSome then [.spanError] else []) ++ [.spanEnd])

/-- Interpretation of `Delete` on any `Indexer` (return value and events). -/
def runDelete {K V : Type} :
    Indexer K V → List K → Option GoErr × List Obs
  | .Index db, keys => ((Index.Delete db keys).1, [])
  | .noOpIndexer, _ => (none, [])
  | .loggedIndexer inner _, keys =>
    let (err, obs) := runDelete inner keys
    (err,
      .logInfo "deleting keys" :: obs ++
        (if err.isSome then [.logWarn "failed to delete indexed items"] else []))
  | .metricsIndexer inner _, keys =>
    let (err, obs) := runDelete inner keys
    (err,
      .inc "deletes_total" :: obs ++
        (if err.isSome then [.inc "deletes_failed"] else []) ++
        [.latency "delete"])
  | .tracedIndexer inner _, keys =>
    let (err, obs) := runDelete inner keys
    (err,
      .spanStart "delete" :: obs ++
        (if err.isSome then [.spanError] else []) ++ [.spanEnd])

/-- Interpretation of `Shutdown` on any `Indexer`: `Index` closes its
database; `loggedIndexer` logs around delegation; `metricsIndexer` releases
its own sink when the sink exposes a `Shutdown`/`Close` shape and returns
`errors.Join(delegate result, sink release result)`; `tracedIndexer`
delegates directly, starting no span and recording no error status. -/
def runShutdown {K V : Type} : Indexer K V → Option GoErr × List Obs
  | .Index db => (Index.Shutdown db, [])
  | .noOpIndexer => (none, [])
  | .loggedIndexer inner _ =>
    let (err, obs) := runShutdown inner
    (err,
      .logInfo "shutting down Indexer" :: obs ++
        (if err.isSome then [.logWarn "failed to gracefully shut down"] else []))
  | .metricsIndexer inner m =>
    let (err, obs) := runShutdown inner
    (goJoin err m.release.join, obs)
  | .tracedIndexer inner _ => runShutdown inner

/-- Configuration accumulated by `cfg.New` (part_002 of the source): backend
location plus the three optional sinks. -/
structure Config where
  uri : String
  logHandler : Option LogHandler
  metrics : Option MetricsSink
  tracer : Option Tracer
deriving DecidableEq, Repr

/-- Zero value of `Config`, the starting point of `cfg.New`. -/
def Config.zero : Config := ⟨"", none, none, none⟩

/-- The option constructors of the package (part_002): each returns a
function setting one field of the accumulating `Config`.  `withLogger`
covers `WithLogger`, which stores the logger's handler. -/
inductive Opt where
  | withURI (uri : String)
  | withLogger (h : LogHandler)
  | withLogHandler (h : LogHandler)
  | withMetrics (m : MetricsSink)
  | withTrace (t : Tracer)
deriving DecidableEq, Repr

/-- Application of one option to the accumulating `Config`. -/
def applyOpt (c : Config) : Opt → Config
  | .withURI uri => { c with uri := uri }
  | .withLogger h => { c with logHandler := some h }
  | .withLogHandler h => { c with logHandler := some h }
  | .withMetrics m => { c with metrics := some m }
  | .withTrace t => { c with tracer := some t }

/-- The `Config` field an option targets (0 = uri, 1 = log, 2 = metrics,
3 = trace); two options commute iff they target different fields. -/
def Opt.target : Opt → Fin 4
  | .withURI _ => 0
  | .withLogger _ => 1
  | .withLogHandler _ => 1
  | .withMetrics _ => 2
  | .withTrace _ => 3

/-- Semantics of `cfg.New[Config](opts...)`: fold the options over the zero
value in supply order. -/
def cfgNew (opts : List Opt) : Config := opts.foldl applyOpt Config.zero

/-- Translation of `New` (indexer.go): build the config, construct the
backend-bound core (`NewIndex`), returning the no-op variant plus the error
on failure; then decorate with logs, metrics and trace, in that order, each
only when its sink was configured. -/
def New {K V : Type} (env : DBEnv K V) (attrs : List (Attribute K V))
    (opts : List Opt) : Indexer K V × Option GoErr :=
  let config := cfgNew opts
  match NewIndex env config.uri attrs with
  | .error e => (NoOp, some e)
  | .ok db =>
    let i0 : Indexer K V := .Index db
    let i1 := match config.logHandler with
      | none => i0
      | some h => IndexerWithLogs (some i0) (some h)
    let i2 := match config.metrics with
      | none => i1
      | some m => IndexerWithMetrics (some i1) (some m)
    let i3 := match config.tracer with
      | none => i2
      | some t => IndexerWithTrace (some i2) (some t)
    (i3, none)

/-- Decorator wrapping depth of an `Indexer` value. -/
def Indexer.depth {K V : Type} : Indexer K V → Nat
  | .Index _ => 0
  | .noOpIndexer => 0
  | .loggedIndexer inner _ => inner.depth + 1
  | .metricsIndexer inner _ => inner.depth + 1
  | .tracedIndexer inner _ => inner.depth + 1

/-- Layer kinds of the decorator stack, outermost first. -/
inductive Layer where
  | log
  | metrics
  | trace
  | core
  | noop
deriving DecidableEq, Repr

/-- Decorator stack of an `Indexer` value, outermost first. -/
def Indexer.layers {K V : Type} : Indexer K V → List Layer
  | .Index _ => [.core]
  | .noOpIndexer => [.noop]
  | .loggedIndexer inner _ => .log :: inner.layers
  | .metricsIndexer inner _ => .metrics :: inner.layers
  | .tracedIndexer inner _ => .trace :: inner.layers

theorem errIs_refl (e : GoErr) : errIs e e = true := by
  cases e <;> simp [errIs]

theorem errIs_backend_notFound (msg : String) :
    errIs (.backend msg) ErrNotFoundKeyword = false := by
  simp [errIs, ErrNotFoundKeyword]

theorem errIs_wrap_notFound (s : String) :
    errIs (.wrap ErrNotFoundKeyword s) ErrNotFoundKeyword = true := by
  simp [errIs, ErrNotFoundKeyword]

theorem scanRows_ok {K V : Type} (se : Nat → Option String) :
    ∀ (i : Nat) (l res : List (Attribute K V)),
      scanRows se i l = .ok res → res = l := by
  intro i l
  induction l generalizing i with
  | nil =>
    intro res h
    simp [scanRows] at h
    exact h
  | cons a rest ih =>
    intro res h
    cases hse : se i with
    | some msg => simp [scanRows, hse] at h
    | none =>
      simp [scanRows, hse] at h
      cases hrec : scanRows se (i + 1) rest with
      | error e => simp [hrec, Except.map] at h
      | ok tl =>
        simp [hrec, Except.map] at h
        rw [← h, ih (i + 1) tl hrec]

theorem scanRows_error {K V : Type} (se : Nat → Option String) :
    ∀ (i : Nat) (l : List (Attribute K V)) (e : GoErr),
      scanRows se i l = .error e → ∃ msg, e = .backend msg := by
  intro i l
  induction l generalizing i with
  | nil => intro e h; simp [scanRows] at h
  | cons a rest ih =>
    intro e h
    cases hse : se i with
    | some msg =>
      simp [scanRows, hse] at h
      exact ⟨msg, h.symm⟩
    | none =>
      simp [scanRows, hse] at h
      cases hrec : scanRows se (i + 1) rest with
      | error e2 =>
        simp [hrec, Except.map] at h
        exact h ▸ ih (i + 1) e2 hrec
      | ok tl => simp [hrec, Except.map] at h

/-- C1: `Index.Search` returns an error satisfying
`errors.Is(err, ErrNotFoundKeyword)` exactly when the backend query executes
successfully and yields zero matching rows; backend query and scan failures
are returned as distinct (opaque backend) errors on which that check fails. -/
theorem Search_notFoundKeyword_iff {K V : Type} (db : DB K V) (term : V) :
    (∃ e, (Index.Search db term).2 = some e ∧ errIs e ErrNotFoundKeyword = true) ↔
      (db.faults.queryErr = none ∧
        db.rows.filter (fun a => db.ftsMatch a.val term) = []) := by
  constructor
  · rintro ⟨e, he, his⟩
    cases hq : db.faults.queryErr with
    | some msg =>
      simp [Index.Search, hq] at he
      rw [← he] at his
      simp [errIs_backend_notFound] at his
    | none =>
      refine ⟨rfl, ?_⟩
      cases hs : scanRows db.faults.scanErr 0
          (db.rows.filter (fun a => db.ftsMatch a.val term)) with
      | error e2 =>
        simp [Index.Search, hq, hs] at he
        obtain ⟨msg, rfl⟩ := scanRows_error db.faults.scanErr 0 _ e2 hs
        rw [← he] at his
        simp [errIs_backend_notFound] at his
      | ok res =>
        have hres := scanRows_ok db.faults.scanErr 0 _ res hs
        by_cases hlen : res.length = 0
        · rw [← hres]
          exact List.length_eq_zero.mp hlen
        · simp [Index.Search, hq, hs, hlen] at he
  · rintro ⟨hq, hfil⟩
    refine ⟨.wrap ErrNotFoundKeyword (db.fmtV term), ?_, errIs_wrap_notFound _⟩
    simp [Index.Search, hq, hfil, scanRows]

/-- Witness for C1: a concrete database with no faults and no row matching
the term "gold" satisfies both sides. -/
def dbC1 : DB Nat String :=
  ⟨[⟨1, "some data"⟩], fun v term => v = term, fun a b => a = b,
    fun v => v, DBFaults.ok⟩

theorem Search_notFoundKeyword_iff_witness :
    (∃ e, (Index.Search dbC1 "gold").2 = some e ∧
        errIs e ErrNotFoundKeyword = true) ↔
      (dbC1.faults.queryErr = none ∧
        dbC1.rows.filter (fun a => dbC1.ftsMatch a.val "gold") = []) :=
  Search_notFoundKeyword_iff dbC1 "gold"

/-- Database whose `Commit` fails with a disk I/O error while `Rollback`
succeeds — the failing input for C2. -/
def dbCommitFail : DB Nat String :=
  ⟨[], fun v term => v = term, fun a b => a = b, fun v => v,
    ⟨none, fun _ => none, none, fun _ => none,
      some "disk I/O error", none, none⟩⟩

/-- C2 (refuted — code bug): when `Commit` fails, `Index.Insert` and
`Index.Delete` return `tx.Rollback()`, so the commit error is discarded; with
a succeeding rollback the caller is told `nil` although nothing was written
(the batch is absent from the state) and nothing was deleted. -/
theorem Insert_Delete_commitError_swallowed :
    (Index.Insert dbCommitFail [⟨1, "struck gold"⟩]).1 = none ∧
    (Index.Insert dbCommitFail [⟨1, "struck gold"⟩]).2.rows = [] ∧
    (Index.Delete dbCommitFail [1]).1 = none := by
  refine ⟨rfl, rfl, rfl⟩

/-- C8: on a database whose transaction begin and commit succeed, inserting
an empty attribute batch and deleting an empty key batch return no error and
leave the database (in particular its rows) unchanged. -/
theorem Insert_Delete_empty_noop {K V : Type} (db : DB K V)
    (hb : db.faults.beginTxErr = none) (hc : db.faults.commitErr = none) :
    Index.Insert db [] = (none, db) ∧ Index.Delete db [] = (none, db) := by
  obtain ⟨rows, fm, km, fv, faults⟩ := db
  simp only [Index.Insert, Index.Delete] at *
  simp [hb, hc, execLoop, List.foldl]

/-- Witness for C8: the healthy concrete database `dbC1`. -/
theorem Insert_Delete_empty_noop_witness :
    Index.Insert dbC1 [] = (none, dbC1) ∧ Index.Delete dbC1 [] = (none, dbC1) :=
  Insert_Delete_empty_noop dbC1 rfl rfl

theorem iterate_withLogs_depth {K V : Type} (d : Indexer K V) (h : LogHandler) :
    ∀ (n : Nat) (s : LogHandler),
      (Nat.iterate (fun ix => IndexerWithLogs (some ix) (some h)) n
          (.loggedIndexer d s)).depth = d.depth + 1 := by
  intro n
  induction n with
  | zero => intro s; rfl
  | succ k ih =>
    intro s
    rw [Function.iterate_succ_apply]
    exact ih h

theorem iterate_withMetrics_depth {K V : Type} (d : Indexer K V) (m : MetricsSink) :
    ∀ (n : Nat) (s : MetricsSink),
      (Nat.iterate (fun ix => IndexerWithMetrics (some ix) (some m)) n
          (.metricsIndexer d s)).depth = d.depth + 1 := by
  intro n
  induction n with
  | zero => intro s; rfl
  | succ k ih =>
    intro s
    rw [Function.iterate_succ_apply]
    exact ih m

theorem iterate_withTrace_depth {K V : Type} (d : Indexer K V) (t : Tracer) :
    ∀ (n : Nat) (s : Tracer),
      (Nat.iterate (fun ix => IndexerWithTrace (some ix) (some t)) n
          (.tracedIndexer d s)).depth = d.depth + 1 := by
  intro n
  induction n with
  | zero => intro s; rfl
  | succ k ih =>
    intro s
    rw [Function.iterate_succ_apply]
    exact ih t

/-- C3: applying a decorator constructor to an indexer that is already a
decorator of the same kind replaces only that decorator's sink — the
delegate is unchanged — and re-applying the same decorator kind any number
of times never increases the wrapping depth. -/
theorem redecoration_replaces_sink {K V : Type} (d : Indexer K V)
    (s h : LogHandler) (sm m : MetricsSink) (st t : Tracer) (n : Nat) :
    IndexerWithLogs (some (.loggedIndexer d s)) (some h) = .loggedIndexer d h ∧
    IndexerWithMetrics (some (.metricsIndexer d sm)) (some m) =
      .metricsIndexer d m ∧
    IndexerWithTrace (some (.tracedIndexer d st)) (some t) =
      .tracedIndexer d t ∧
    (Nat.iterate (fun ix => IndexerWithLogs (some ix) (some h)) n
        (.loggedIndexer d s)).depth = (Indexer.loggedIndexer d s).depth ∧
    (Nat.iterate (fun ix => IndexerWithMetrics (some ix) (some m)) n
        (.metricsIndexer d sm)).depth = (Indexer.metricsIndexer d sm).depth ∧
    (Nat.iterate (fun ix => IndexerWithTrace (some ix) (some t)) n
        (.tracedIndexer d st)).depth = (Indexer.tracedIndexer d st).depth := by
  refine ⟨rfl, rfl, rfl, ?_, ?_, ?_⟩
  · rw [iterate_withLogs_depth d h n s]; rfl
  · rw [iterate_withMetrics_depth d m n sm]; rfl
  · rw [iterate_withTrace_depth d t n st]; rfl

/-- Metrics sink whose resource release (`Shutdown`/`Close`) fails. -/
def failingSink : MetricsSink :=
  ⟨1, some (some (.backend "metrics server: close failed"))⟩

/-- C4 counterexample: decorating the no-op indexer with the metrics
decorator does not return the no-op variant unchanged — it wraps it — and
the resulting instance's `Shutdown` returns a non-nil error when the sink's
release fails, so the decorated object is not behaviorally identical to the
no-op variant. -/
theorem withMetrics_noOp_not_noOp :
    IndexerWithMetrics (K := Nat) (V := String) (some NoOp) (some failingSink)
        ≠ NoOp ∧
    (runShutdown (IndexerWithMetrics (K := Nat) (V := String)
        (some NoOp) (some failingSink))).1 =
      some (.joined1 (.backend "metrics server: close failed")) := by
  constructor
  · intro h
    simp [IndexerWithMetrics, NoOp] at h
  · rfl

/-- C4 (amended): decorating a nil indexer with any decorator constructor
yields the no-op variant; decorating the no-op variant wraps it in a
decorator whose `Search` returns no matches and nil error, whose `Insert`
and `Delete` return nil, and whose `Shutdown` returns nil for the log and
trace decorators, while the metrics decorator's `Shutdown` additionally
joins the sink's release result (nil exactly when the sink releases
cleanly). -/
theorem decorate_nil_noOp_behavior {K V : Type} (h : LogHandler)
    (m : MetricsSink) (t : Tracer) (term : V)
    (attrs : List (Attribute K V)) (keys : List K) :
    IndexerWithLogs (K := K) (V := V) none (some h) = NoOp ∧
    IndexerWithMetrics (K := K) (V := V) none (some m) = NoOp ∧
    IndexerWithTrace (K := K) (V := V) none (some t) = NoOp ∧
    (runSearch (IndexerWithLogs (K := K) (V := V)
        (some NoOp) (some h)) term).1 = (none, none) ∧
    (runSearch (IndexerWithMetrics (K := K) (V := V)
        (some NoOp) (some m)) term).1 = (none, none) ∧
    (runSearch (IndexerWithTrace (K := K) (V := V)
        (some NoOp) (some t)) term).1 = (none, none) ∧
    (runInsert (IndexerWithLogs (some NoOp) (some h)) attrs).1 = none ∧
    (runInsert (IndexerWithMetrics (some NoOp) (some m)) attrs).1 = none ∧
    (runInsert (IndexerWithTrace (some NoOp) (some t)) attrs).1 = none ∧
    (runDelete (IndexerWithLogs (K := K) (V := V)
        (some NoOp) (some h)) keys).1 = none ∧
    (runDelete (IndexerWithMetrics (K := K) (V := V)
        (some NoOp) (some m)) keys).1 = none ∧
    (runDelete (IndexerWithTrace (K := K) (V := V)
        (some NoOp) (some t)) keys).1 = none ∧
    (runShutdown (IndexerWithLogs (K := K) (V := V)
        (some NoOp) (some h))).1 = none ∧
    (runShutdown (IndexerWithTrace (K := K) (V := V)
        (some NoOp) (some t))).1 = none ∧
    (runShutdown (IndexerWithMetrics (K := K) (V := V)
        (some NoOp) (some m))).1 = goJoin none m.release.join := by
  refine ⟨rfl, rfl, rfl, rfl, rfl, rfl, rfl, rfl, rfl, rfl, rfl, rfl,
    rfl, rfl, rfl⟩

/-- Predicate picking span-start events out of an observation trace. -/
def isSpanStart : Obs → Bool
  | .spanStart _ => true
  | _ => false

theorem runShutdown_no_spanStart {K V : Type} :
    ∀ ix : Indexer K V, ((runShutdown ix).2).filter isSpanStart = [] := by
  intro ix
  induction ix with
  | Index db => rfl
  | noOpIndexer => rfl
  | loggedIndexer inner lg ih =>
    rcases hrun : runShutdown inner with ⟨err, obs⟩
    rw [hrun] at ih
    cases err <;>
      simp_all [runShutdown, hrun, List.filter_append, isSpanStart]
  | metricsIndexer inner m ih =>
    rcases hrun : runShutdown inner with ⟨err, obs⟩
    rw [hrun] at ih
    simp_all [runShutdown, hrun]
  | tracedIndexer inner tr ih =>
    simpa [runShutdown] using ih

/-- C6: the metrics decorator's `Shutdown` returns
`errors.Join(delegate result, sink release result)` — when the sink exposes a
`Shutdown`/`Close` shape its release runs, and when both the delegate and the
release fail the returned error is their join, on which `errors.Is` finds
both failures; the tracing decorator's `Shutdown` delegates unchanged and
emits no span-start event. -/
theorem metrics_shutdown_joins_trace_delegates {K V : Type}
    (inner : Indexer K V) (m : MetricsSink) (t : Tracer) (e1 e2 : GoErr)
    (hd : (runShutdown inner).1 = some e1)
    (hm : m.release = some (some e2)) :
    (∀ m2 : MetricsSink, runShutdown (Indexer.metricsIndexer inner m2) =
      (goJoin (runShutdown inner).1 m2.release.join, (runShutdown inner).2)) ∧
    (runShutdown (Indexer.metricsIndexer inner m)).1 =
      some (.joined2 e1 e2) ∧
    errIs (GoErr.joined2 e1 e2) e1 = true ∧
    errIs (GoErr.joined2 e1 e2) e2 = true ∧
    (∀ ix : Indexer K V,
      runShutdown (Indexer.tracedIndexer ix t) = runShutdown ix) ∧
    (∀ ix : Indexer K V,
      ((runShutdown (Indexer.tracedIndexer ix t)).2).filter isSpanStart = []) := by
  refine ⟨?_, ?_, ?_, ?_, fun ix => rfl,
    fun ix => runShutdown_no_spanStart (Indexer.tracedIndexer ix t)⟩
  · intro m2
    rcases hrun : runShutdown inner with ⟨err, obs⟩
    simp [runShutdown, hrun]
  · rcases hrun : runShutdown inner with ⟨err, obs⟩
    rw [hrun] at hd
    simp only at hd
    simp [runShutdown, hrun, hd, hm, Option.join, goJoin]
  · simp [errIs, errIs_refl]
  · simp [errIs, errIs_refl]

/-- Database whose `Close` fails — delegate shutdown failure for the C6
witness. -/
def dbCloseFail : DB Nat String :=
  ⟨[], fun v term => v = term, fun a b => a = b, fun v => v,
    ⟨none, fun _ => none, none, fun _ => none, none, none,
      some "close failed"⟩⟩

/-- Witness for C6: a core indexer whose close fails, decorated with a sink
whose release fails, yields the join of both errors. -/
theorem metrics_shutdown_joins_witness :
    (runShutdown (Indexer.metricsIndexer (Indexer.Index dbCloseFail)
        failingSink)).1 =
      some (.joined2 (.backend "close failed")
        (.backend "metrics server: close failed")) :=
  (metrics_shutdown_joins_trace_delegates (Indexer.Index dbCloseFail)
    failingSink ⟨0⟩ (.backend "close failed")
    (.backend "metrics server: close failed") rfl rfl).2.1

/-- C7: whenever the backend-bound core construction (`NewIndex`) fails,
`New` returns the no-op variant together with the construction error — the
caller never receives a nil capability-interface value. -/
theorem New_constructionFailure_returns_noOp {K V : Type} (env : DBEnv K V)
    (attrs : List (Attribute K V)) (opts : List Opt) (e : GoErr)
    (h : NewIndex env (cfgNew opts).uri attrs = .error e) :
    New env attrs opts = (NoOp, some e) := by
  simp [New, h]

/-- Filesystem on which every path stats as an existing directory. -/
def fsDir : Fs := ⟨fun _ => .dir, fun _ => none⟩

/-- Construction environment whose URI validation meets a directory. -/
def envDir : DBEnv Nat String :=
  ⟨fsDir, none, fun v term => v = term, fun a b => a = b, fun v => v,
    DBFaults.ok⟩

/-- Witness for C7: constructing on a URI that names a directory fails and
yields the no-op variant plus that error. -/
theorem New_constructionFailure_witness :
    New envDir ([] : List (Attribute Nat String)) [.withURI "somedir"] =
      (NoOp, some (.backend "somedir is a directory")) :=
  New_constructionFailure_returns_noOp envDir [] [.withURI "somedir"]
    (.backend "somedir is a directory") rfl

/-- C9: the empty string and the `:memory:` sentinel resolve to the ephemeral
in-memory backend; any other string is validated as a filesystem path — when
it is absent it is created (`os.Create`, whose outcome decides the call) and
when it names an existing directory `open` returns an error and no
connection. -/
theorem open_location_resolution (fs : Fs) (uri : String)
    (h1 : uri ≠ "") (h2 : uri ≠ inMemory) :
    openURI fs "" = .ok (dsnOf inMemory) ∧
    openURI fs inMemory = .ok (dsnOf inMemory) ∧
    (fs.stat uri = .notExist →
      openURI fs uri =
        (match fs.create uri with
          | none => .ok (dsnOf uri)
          | some msg => .error (.backend msg))) ∧
    (fs.stat uri = .dir →
      openURI fs uri = .error (.backend (uri ++ " is a directory"))) := by
  refine ⟨rfl, rfl, ?_, ?_⟩
  · intro hstat
    cases hc : fs.create uri <;>
      simp [openURI, h1, h2, validateURI, hstat, hc]
  · intro hstat
    simp [openURI, h1, h2, validateURI, hstat]

/-- Filesystem on which every path is absent and creation succeeds. -/
def fsAbsent : Fs := ⟨fun _ => .notExist, fun _ => none⟩

/-- Witness for C9: on a filesystem where "data.db" is absent and creation
succeeds, opening "data.db" succeeds on the file DSN. -/
theorem open_location_resolution_witness :
    openURI fsAbsent "data.db" =
      (match fsAbsent.create "data.db" with
        | none => .ok (dsnOf "data.db")
        | some msg => .error (.backend msg)) :=
  (open_location_resolution fsAbsent "data.db" (by decide) (by decide)).2.2.1
    rfl

/-- C10: the metrics decorator increments the received-search counter on
every call and the failed-search counter exactly when the delegate returns a
non-nil error; in particular a zero-match search on a healthy backend — which
returns the expected `ErrNotFoundKeyword` outcome — is counted both as a
received search and as a failed search. -/
theorem metrics_counts_notFound_search_as_failed {K V : Type}
    (inner : Indexer K V) (m : MetricsSink) (term : V) (db : DB K V)
    (hq : db.faults.queryErr = none)
    (hfil : db.rows.filter (fun a => db.ftsMatch a.val term) = []) :
    ((runSearch (Indexer.metricsIndexer inner m) term).2).count
        (Obs.inc "searches_total") =
      ((runSearch inner term).2).count (Obs.inc "searches_total") + 1 ∧
    ((runSearch (Indexer.metricsIndexer inner m) term).2).count
        (Obs.inc "searches_failed") =
      ((runSearch inner term).2).count (Obs.inc "searches_failed") +
        (if ((runSearch inner term).1.2).isSome then 1 else 0) ∧
    (runSearch (Indexer.metricsIndexer (.Index db) m) term).1.2 =
      some (.wrap ErrNotFoundKeyword (db.fmtV term)) ∧
    errIs (((runSearch (Indexer.metricsIndexer (.Index db) m) term).1.2).getD
        (.backend "")) ErrNotFoundKeyword = true ∧
    ((runSearch (Indexer.metricsIndexer (.Index db) m) term).2).count
        (Obs.inc "searches_total") = 1 ∧
    ((runSearch (Indexer.metricsIndexer (.Index db) m) term).2).count
        (Obs.inc "searches_failed") = 1 := by
  have hsearch : Index.Search db term =
      (none, some (.wrap ErrNotFoundKeyword (db.fmtV term))) := by
    simp [Index.Search, hq, hfil, scanRows]
  rcases hrun : runSearch inner term with ⟨⟨res, err⟩, obs⟩
  refine ⟨?_, ?_, ?_, ?_, ?_, ?_⟩
  · cases err <;>
      simp [runSearch, hrun, List.count_cons, List.count_append]
  · cases err <;>
      simp [runSearch, hrun, List.count_cons, List.count_append]
  · simp [runSearch, hsearch]
  · simp [runSearch, hsearch, errIs_wrap_notFound]
  · simp [runSearch, hsearch, List.count_cons, List.count_append]
  · simp [runSearch, hsearch, List.count_cons, List.count_append]

/-- Witness for C10: on the healthy `dbC1`, searching "gold" matches nothing,
and the metrics decorator counts the call as received and as failed. -/
theorem metrics_counts_notFound_witness :
    ((runSearch (Indexer.metricsIndexer (.Index dbC1) ⟨2, none⟩)
        "gold").2).count (Obs.inc "searches_total") = 1 ∧
    ((runSearch (Indexer.metricsIndexer (.Index dbC1) ⟨2, none⟩)
        "gold").2).count (Obs.inc "searches_failed") = 1 := by
  have h := metrics_counts_notFound_search_as_failed
    (Indexer.noOpIndexer (K := Nat) (V := String)) ⟨2, none⟩ "gold" dbC1
    rfl rfl
  exact ⟨h.2.2.2.2.1, h.2.2.2.2.2⟩

theorem applyOpt_comm (x y : Opt) (hxy : x.target ≠ y.target) (c : Config) :
    applyOpt (applyOpt c x) y = applyOpt (applyOpt c y) x := by
  cases x <;> cases y <;> first | rfl | exact absurd rfl hxy

theorem perm_foldl_applyOpt {l1 l2 : List Opt} (p : l1.Perm l2)
    (hc : ∀ x ∈ l1, ∀ y ∈ l1, ∀ c : Config,
      applyOpt (applyOpt c x) y = applyOpt (applyOpt c y) x) :
    ∀ c : Config, l1.foldl applyOpt c = l2.foldl applyOpt c := by
  induction p with
  | nil => intro c; rfl
  | cons a p ih =>
    intro c
    simp only [List.foldl_cons]
    exact ih (fun x hx y hy z =>
      hc x (List.mem_cons_of_mem a hx) y (List.mem_cons_of_mem a hy) z)
      (applyOpt c a)
  | swap a b l =>
    intro c
    simp only [List.foldl_cons]
    rw [hc b (by simp) a (by simp) c]
  | trans p1 p2 ih1 ih2 =>
    intro c
    rw [ih1 hc c,
      ih2 (fun x hx y hy z =>
        hc x (p1.symm.subset hx) y (p1.symm.subset hy) z) c]

theorem targets_nodup_inj {l : List Opt} (hnd : (l.map Opt.target).Nodup)
    {x y : Opt} (hx : x ∈ l) (hy : y ∈ l) (hne : x ≠ y) :
    x.target ≠ y.target := by
  rw [List.nodup_map_iff_inj_on (List.Nodup.of_map Opt.target hnd)] at hnd
  intro ht
  exact hne (hnd x hx y hy ht)

/-- C5: `New` layers the decorators in the fixed order log → metrics → trace
around the backend-bound core, each only when its sink was configured: the
decorator stack of the result is exactly determined by which sinks are set
(trace outermost, then metrics, then log, core innermost); with all three
sinks configured the result is a trace decorator wrapping a metrics decorator
wrapping a log decorator wrapping the core; and permuting the supplied
options (when no two options target the same configuration field) does not
change the result. -/
theorem New_fixed_decorator_order {K V : Type} (env : DBEnv K V)
    (attrs : List (Attribute K V)) (opts : List Opt) (db : DB K V)
    (hok : NewIndex env (cfgNew opts).uri attrs = .ok db) :
    ((New env attrs opts).1).layers =
      (((cfgNew opts).tracer.map fun _ => Layer.trace).toList ++
        (((cfgNew opts).metrics.map fun _ => Layer.metrics).toList ++
          ((((cfgNew opts).logHandler.map fun _ => Layer.log).toList ++
            [Layer.core])))) ∧
    (∀ h m t, (cfgNew opts).logHandler = some h →
      (cfgNew opts).metrics = some m → (cfgNew opts).tracer = some t →
      (New env attrs opts).1 =
        .tracedIndexer (.metricsIndexer (.loggedIndexer (.Index db) h) m) t) ∧
    (∀ opts2 : List Opt, opts.Perm opts2 → (opts.map Opt.target).Nodup →
      New env attrs opts2 = New env attrs opts) := by
  refine ⟨?_, ?_, ?_⟩
  · cases hL : (cfgNew opts).logHandler <;>
      cases hM : (cfgNew opts).metrics <;>
      cases hT : (cfgNew opts).tracer <;>
      simp [New, hok, hL, hM, hT, IndexerWithLogs, IndexerWithMetrics,
        IndexerWithTrace, Indexer.layers]
  · intro h m t hL hM hT
    simp [New, hok, hL, hM, hT, IndexerWithLogs, IndexerWithMetrics,
      IndexerWithTrace]
  · intro opts2 hp hnd
    have hcfg : cfgNew opts2 = cfgNew opts := by
      refine (perm_foldl_applyOpt hp ?_ Config.zero).symm
      intro x hx y hy c
      by_cases hne : x = y
      · subst hne; rfl
      · exact applyOpt_comm x y (targets_nodup_inj hnd hx hy hne) c
    simp only [New, hcfg]

/-- Environment for the C5 witness: an in-memory database with a healthy
backend. -/
def envMem : DBEnv Nat String :=
  ⟨fsAbsent, none, fun v term => v = term, fun a b => a = b, fun v => v,
    DBFaults.ok⟩

/-- Database produced by `NewIndex envMem "" []`. -/
def dbMem : DB Nat String :=
  ⟨[], fun v term => v = term, fun a b => a = b, fun v => v, DBFaults.ok⟩

/-- Options for the C5 witness, deliberately supplied out of the fixed
decoration order (trace first, then log, then metrics). -/
def optsC5 : List Opt := [.withTrace ⟨7⟩, .withLogHandler ⟨8⟩, .withMetrics ⟨9, none⟩]

/-- Witness for C5: built from trace/log/metrics options in that supply
order, the result is nevertheless the trace decorator wrapping the metrics
decorator wrapping the log decorator wrapping the core. -/
theorem New_fixed_decorator_order_witness :
    (New envMem ([] : List (Attribute Nat String)) optsC5).1 =
      .tracedIndexer (.metricsIndexer (.loggedIndexer (.Index dbMem) ⟨8⟩)
        ⟨9, none⟩) ⟨7⟩ :=
  (New_fixed_decorator_order envMem [] optsC5 dbMem rfl).2.1 ⟨8⟩ ⟨9, none⟩ ⟨7⟩
    rfl rfl rfl
